import Mathlib

set_option maxHeartbeats 1000000
set_option maxRecDepth 8000

/-!
Shallow embedding of `data_generator.py`: a library of synthetic-dataset
generators that all draw from one shared pseudo-random source.

Modelling conventions:
* The shared random source is an abstract infinite stream of naturals plus a
  cursor (`RState`); every primitive draw consumes exactly one stream element.
  Seeding (`random.seed(42)`) corresponds to fixing a concrete `RState`.
* Python floats are modelled as rationals; `round(x, k)` is rounding to the
  nearest integer multiple of `10⁻ᵏ`.
* `datetime` values are modelled as integer seconds; `datetime.now()` is an
  explicit parameter `now` of every generator that reads the wall clock;
  `timedelta(days = d)` is `d * 86400`, `hours = h` is `h * 3600`,
  `minutes = m` is `m * 60`.
* `random.randint a b` returns `a + draw % (b - a + 1)` (uniform over the
  inclusive range when `a ≤ b`); `random.random()` returns a rational in
  `[0, 1)`; `random.uniform a b = a + (b - a) * random()`;
  `random.choice l` picks the element at index `draw % l.length`;
  `random.shuffle` is a draw-driven selection shuffle (a permutation).
* The one fallible generator (`generate_numbers`, which raises `ValueError`
  for an unknown `type`) returns `Except`; all other generators are total,
  mirroring the source where only `generate_numbers` validates its input.
-/

namespace DataGen

/-- State of the shared pseudo-random source: an abstract stream of raw draws
and the position of the next draw. -/
structure RState where
  stream : Nat → Nat
  pos : Nat

/-- One raw draw from the shared source. -/
def randNat (s : RState) : Nat × RState :=
  (s.stream s.pos, ⟨s.stream, s.pos + 1⟩)

/-- `random.randint(a, b)`: uniform integer in `[a, b]` (for `a ≤ b`). -/
def randint (a b : Int) (s : RState) : Int × RState :=
  let p := randNat s
  (a + ((p.1 % (b - a + 1).toNat : Nat) : Int), p.2)

/-- `random.random()`: a rational in `[0, 1)`. -/
def randFloat (s : RState) : ℚ × RState :=
  let p := randNat s
  (((p.1 % 1000000 : Nat) : ℚ) / 1000000, p.2)

/-- `random.uniform(a, b) = a + (b - a) * random()`. -/
def uniform (a b : ℚ) (s : RState) : ℚ × RState :=
  let p := randFloat s
  (a + (b - a) * p.1, p.2)

/-- `random.choice(l)` for the non-empty literal pools of the source; `d` is a
fallback default never used at the call sites (all pools are non-empty). -/
def choiceD {α : Type} (l : List α) (d : α) (s : RState) : α × RState :=
  let p := randNat s
  (l.getD (p.1 % l.length) d, p.2)

/-- `n` successive draws of `f`, in order (a Python list comprehension). -/
def listDraws {α : Type} (f : RState → α × RState) : Nat → RState → List α × RState
  | 0, s => ([], s)
  | n + 1, s =>
    let p := f s
    let q := listDraws f n p.2
    (p.1 :: q.1, q.2)

/-- Python `round(q, nd)`: round to the nearest multiple of `10⁻ⁿᵈ`. -/
def pyRound (nd : Nat) (q : ℚ) : ℚ := ((round (q * 10 ^ nd) : ℤ) : ℚ) / 10 ^ nd

/-! ### Record types of the structured generators -/

structure Student where
  name : String
  age : Int
  grade : ℚ
  major : String
  credits : Int
deriving DecidableEq

structure Product where
  id : Int
  name : String
  price : ℚ
  quantity : Int
  category : String
  rating : ℚ
deriving DecidableEq

structure Transaction where
  id : Int
  date : Int
  amount : ℚ
  category : String
  merchant : String
  status : String
deriving DecidableEq

structure LogEntry where
  timestamp : Int
  level : String
  message : String
  module : String
  user_id : Int
deriving DecidableEq

structure TSPoint where
  date : Int
  value : ℚ
  volume : Int
deriving DecidableEq

structure Purchase where
  item : String
  price : ℚ
  date : Int
deriving DecidableEq

structure User where
  id : Int
  username : String
  email : String
  age : Int
  city : String
  active : Bool
  premium : Bool
  purchases : List Purchase
deriving DecidableEq

/-- The Python values appearing in `generate_mixed_types`, as a variant type:
integers, strings, floats, `None`, booleans, a list of ints, a str-keyed dict,
a set of ints and a tuple of ints. -/
inductive PyVal where
  | int (n : Int)
  | str (s : String)
  | float (q : ℚ)
  | none
  | bool (b : Bool)
  | intList (l : List Int)
  | strDict (l : List (String × String))
  | intSet (l : List Int)
  | intTuple (l : List Int)
deriving DecidableEq

/-! ### Basic data generators -/

/-- `generate_numbers(n, min_val, max_val, type)`: random ints or floats;
raises (returns `Except.error`) when `type` is neither `"int"` nor `"float"`,
without drawing anything. -/
def generate_numbers (n : Nat) (min_val max_val : Int) (type : String) (s : RState) :
    Except String (List ℚ) × RState :=
  if type = "int" then
    let p := listDraws (randint min_val max_val) n s
    (Except.ok (p.1.map (fun (z : Int) => (z : ℚ))), p.2)
  else if type = "float" then
    let p := listDraws (uniform (min_val : ℚ) (max_val : ℚ)) n s
    (Except.ok p.1, p.2)
  else
    (Except.error "type must be int or float", s)

def ascii_lowercase : List Char :=
  ['a', 'b', 'c', 'd', 'e', 'f', 'g', 'h', 'i', 'j', 'k', 'l', 'm',
   'n', 'o', 'p', 'q', 'r', 's', 't', 'u', 'v', 'w', 'x', 'y', 'z']

def stringsGo (min_len max_len : Int) : Nat → RState → List String × RState
  | 0, s => ([], s)
  | k + 1, s =>
    let pl := randint min_len max_len s
    let pc := listDraws (choiceD ascii_lowercase 'a') pl.1.toNat pl.2
    let pr := stringsGo min_len max_len k pc.2
    (String.mk pc.1 :: pr.1, pr.2)

/-- `generate_strings(n, min_len, max_len)`. -/
def generate_strings (n : Nat) (min_len max_len : Int) (s : RState) : List String × RState :=
  stringsGo min_len max_len n s

def word_prefixes : List String :=
  ["pre", "anti", "de", "dis", "over", "under", "semi", "non", "sub", ""]
def word_roots : List String :=
  ["work", "play", "think", "run", "walk", "talk", "read", "write", "code", "test"]
def word_suffixes : List String :=
  ["ing", "ed", "er", "est", "ly", "ness", "ment", "ful", "less", ""]

def wordsGo : Nat → RState → List String × RState
  | 0, s => ([], s)
  | k + 1, s =>
    let p1 := choiceD word_prefixes "" s
    let p2 := choiceD word_roots "" p1.2
    let p3 := choiceD word_suffixes "" p2.2
    let pr := wordsGo k p3.2
    ((p1.1 ++ p2.1 ++ p3.1) :: pr.1, pr.2)

/-- `generate_words(n)`. -/
def generate_words (n : Nat) (s : RState) : List String × RState := wordsGo n s

def sentence_subjects : List String :=
  ["The student", "A professor", "The algorithm", "Python", "The data"]
def sentence_verbs : List String :=
  ["processes", "analyzes", "transforms", "filters", "aggregates", "computes"]
def sentence_objects : List String :=
  ["the results", "large datasets", "complex patterns", "user input", "the output"]
def sentence_clauses : List String :=
  [" quickly", " efficiently", " with precision", " carefully"]

def sentencesGo : Nat → RState → List String × RState
  | 0, s => ([], s)
  | k + 1, s =>
    let p1 := choiceD sentence_subjects "" s
    let p2 := choiceD sentence_verbs "" p1.2
    let p3 := choiceD sentence_objects "" p2.2
    let base := p1.1 ++ " " ++ p2.1 ++ " " ++ p3.1 ++ "."
    let pu := randFloat p3.2
    if pu.1 > 7 / 10 then
      let pc := choiceD sentence_clauses "" pu.2
      let pr := sentencesGo k pc.2
      ((base.dropRight 1 ++ pc.1 ++ ".") :: pr.1, pr.2)
    else
      let pr := sentencesGo k pu.2
      (base :: pr.1, pr.2)

/-- `generate_sentences(n)`. -/
def generate_sentences (n : Nat) (s : RState) : List String × RState := sentencesGo n s

/-! ### Structured data generators -/

def first_names : List String :=
  ["Alice", "Bob", "Charlie", "Diana", "Eve", "Frank", "Grace", "Henry"]
def last_names : List String :=
  ["Smith", "Johnson", "Williams", "Brown", "Jones", "Garcia", "Miller"]
def student_majors : List String :=
  ["CS", "Math", "Physics", "Biology", "Chemistry", "English", "History", "Art"]

def studentsGo : Nat → RState → List Student × RState
  | 0, s => ([], s)
  | k + 1, s =>
    let pf := choiceD first_names "" s
    let pl := choiceD last_names "" pf.2
    let pa := randint 18 26 pl.2
    let pg := uniform 55 100 pa.2
    let pm := choiceD student_majors "" pg.2
    let pc := randint 12 18 pm.2
    let pr := studentsGo k pc.2
    (⟨pf.1 ++ " " ++ pl.1, pa.1, pyRound 1 pg.1, pm.1, pc.1⟩ :: pr.1, pr.2)

/-- `generate_students(n)`. -/
def generate_students (n : Nat) (s : RState) : List Student × RState := studentsGo n s

def product_prefixes : List String :=
  ["Ultra", "Pro", "Basic", "Premium", "Eco", "Smart", "Power", "Mini"]
def product_items : List String :=
  ["Laptop", "Phone", "Tablet", "Watch", "Speaker", "Camera", "Headphones"]
def product_categories : List String :=
  ["Electronics", "Computers", "Audio", "Photography", "Wearables"]

def productsGo : Nat → Nat → RState → List Product × RState
  | _, 0, s => ([], s)
  | i, k + 1, s =>
    let pp := choiceD product_prefixes "" s
    let pit := choiceD product_items "" pp.2
    let ppr := uniform (2999 / 100) (299999 / 100) pit.2
    let pq := randint 0 500 ppr.2
    let pc := choiceD product_categories "" pq.2
    let prt := uniform 1 5 pc.2
    let pr := productsGo (i + 1) k prt.2
    (⟨(i : Int) + 1000, pp.1 ++ " " ++ pit.1, pyRound 2 ppr.1, pq.1, pc.1,
      pyRound 1 prt.1⟩ :: pr.1, pr.2)

/-- `generate_products(n)`. -/
def generate_products (n : Nat) (s : RState) : List Product × RState := productsGo 0 n s

def trans_categories : List String :=
  ["Food", "Transport", "Entertainment", "Shopping", "Bills", "Healthcare"]
def trans_merchants : List String :=
  ["Amazon", "Walmart", "Starbucks", "Uber", "Netflix", "CVS", "Target"]
def trans_statuses : List String :=
  ["completed", "completed", "completed", "pending", "failed"]

def transGo (start_date : Int) : Nat → Nat → RState → List Transaction × RState
  | _, 0, s => ([], s)
  | i, k + 1, s =>
    let pd := randint 0 90 s
    let ph := randint 0 23 pd.2
    let pa := uniform 5 500 ph.2
    let pc := choiceD trans_categories "" pa.2
    let pm := choiceD trans_merchants "" pc.2
    let ps := choiceD trans_statuses "" pm.2
    let pr := transGo start_date (i + 1) k ps.2
    (⟨(i : Int) + 5000, start_date + pd.1 * 86400 + ph.1 * 3600, pyRound 2 pa.1,
      pc.1, pm.1, ps.1⟩ :: pr.1, pr.2)

/-- `generate_transactions(n)`; `now` is the wall clock (`datetime.now()`) and
`start_date = now - 90 days`. -/
def generate_transactions (n : Nat) (now : Int) (s : RState) : List Transaction × RState :=
  transGo (now - 90 * 86400) 0 n s

def log_levels : List String :=
  ["INFO", "INFO", "INFO", "WARNING", "WARNING", "ERROR", "DEBUG", "CRITICAL"]
def log_modules : List String :=
  ["auth", "database", "api", "payment", "email", "cache"]

/-- The level-keyed message pools (`messages.get(level, ['Generic message'])`). -/
def log_messages (level : String) : List String :=
  if level = "INFO" then
    ["User logged in", "Request processed", "File uploaded", "Cache updated"]
  else if level = "WARNING" then
    ["High memory usage", "Slow query detected", "Rate limit approaching"]
  else if level = "ERROR" then
    ["Connection failed", "Invalid input", "Timeout occurred", "Permission denied"]
  else if level = "DEBUG" then
    ["Variable value", "Function called", "Loop iteration"]
  else if level = "CRITICAL" then
    ["System crash", "Data corruption detected", "Security breach"]
  else ["Generic message"]

def logsGo (start_time : Int) : Nat → RState → List LogEntry × RState
  | 0, s => ([], s)
  | k + 1, s =>
    let pm := randint 0 1440 s
    let pl := choiceD log_levels "" pm.2
    let pmsg := choiceD (log_messages pl.1) "" pl.2
    let pmod := choiceD log_modules "" pmsg.2
    let pu := randint 1000 9999 pmod.2
    let pr := logsGo start_time k pu.2
    (⟨start_time + pm.1 * 60, pl.1, pmsg.1, pmod.1, pu.1⟩ :: pr.1, pr.2)

/-- `generate_logs(n)`; `start_time = now - 24 hours`. -/
def generate_logs (n : Nat) (now : Int) (s : RState) : List LogEntry × RState :=
  logsGo (now - 24 * 3600) n s

/-! ### Special data generators -/

def matrixGo (cols : Nat) (min_val max_val : Int) : Nat → RState → List (List Int) × RState
  | 0, s => ([], s)
  | k + 1, s =>
    let pr := listDraws (randint min_val max_val) cols s
    let rest := matrixGo cols min_val max_val k pr.2
    (pr.1 :: rest.1, rest.2)

/-- `generate_matrix(rows, cols, min_val, max_val)`: row-major random matrix. -/
def generate_matrix (rows cols : Nat) (min_val max_val : Int) (s : RState) :
    List (List Int) × RState :=
  matrixGo cols min_val max_val rows s

/-- Python `f"{i:02d}"` for non-negative `i`. -/
def pad2 (i : Nat) : String := if i < 10 then "0" ++ toString i else toString i

def gradesInnerGo : List String → RState → List (String × Int) × RState
  | [], s => ([], s)
  | a :: rest, s =>
    let pg := randint 60 100 s
    let pr := gradesInnerGo rest pg.2
    ((a, pg.1) :: pr.1, pr.2)

def gradesOuterGo (assignments : List String) :
    List String → RState → List (String × List (String × Int)) × RState
  | [], s => ([], s)
  | st :: rest, s =>
    let pin := gradesInnerGo assignments s
    let pr := gradesOuterGo assignments rest pin.2
    ((st, pin.1) :: pr.1, pr.2)

/-- `generate_grades_dict(n_students, n_assignments)`: insertion-ordered dict
modelled as an association list. -/
def generate_grades_dict (n_students n_assignments : Nat) (s : RState) :
    List (String × List (String × Int)) × RState :=
  let students := (List.range n_students).map (fun i => "Student_" ++ pad2 (i + 1))
  let assignments := (List.range n_assignments).map (fun i => "HW_" ++ toString (i + 1))
  gradesOuterGo assignments students s

def tsGo (start_date : Int) : Nat → Nat → ℚ → RState → List TSPoint × RState
  | _, 0, _, s => ([], s)
  | i, k + 1, value, s =>
    let pc := uniform (-10) 12 s
    let value2 := max 0 (value + pc.1)
    let pv := randint 1000 10000 pc.2
    let pr := tsGo start_date (i + 1) k value2 pv.2
    (⟨start_date + (i : Int) * 86400, pyRound 2 value2, pv.1⟩ :: pr.1, pr.2)

/-- `generate_time_series(days, initial)`: a floor-clamped random walk over
consecutive days starting at `now - days * 86400`. -/
def generate_time_series (days : Nat) (initial : ℚ) (now : Int) (s : RState) :
    List TSPoint × RState :=
  tsGo (now - (days : Int) * 86400) 0 days initial s

def user_cities : List String :=
  ["New York", "Los Angeles", "Chicago", "Houston", "Phoenix", "Philadelphia"]

/-- Python `f"{i:04d}"` for non-negative `i`. -/
def pad4 (i : Nat) : String :=
  if i < 10 then "000" ++ toString i
  else if i < 100 then "00" ++ toString i
  else if i < 1000 then "0" ++ toString i
  else toString i

/-- One purchase sub-record of `generate_user_data`. -/
def purchaseDraw (now : Int) (s : RState) : Purchase × RState :=
  let pit := randint 1 50 s
  let ppr := uniform 10 200 pit.2
  let pd := randint 1 90 ppr.2
  (⟨"item_" ++ toString pit.1, pyRound 2 ppr.1, now - pd.1 * 86400⟩, pd.2)

def usersGo (now : Int) : Nat → Nat → RState → List User × RState
  | _, 0, s => ([], s)
  | i, k + 1, s =>
    let pa := randint 18 65 s
    let pc := choiceD user_cities "" pa.2
    let pact := randFloat pc.2
    let pprem := randFloat pact.2
    let pn := randint 0 10 pprem.2
    let pp := listDraws (purchaseDraw now) pn.1.toNat pn.2
    let pr := usersGo now (i + 1) k pp.2
    (⟨(i : Int) + 1, "user_" ++ pad4 i, "user_" ++ pad4 i ++ "@example.com",
      pa.1, pc.1, decide (pact.1 > 1 / 5), decide (pprem.1 > 7 / 10), pp.1⟩ :: pr.1, pr.2)

/-- `generate_user_data(n)`: nested user profiles with 0–10 purchases each. -/
def generate_user_data (n : Nat) (now : Int) (s : RState) : List User × RState :=
  usersGo now 0 n s

/-- The fixed 19-element heterogeneous sequence of `generate_mixed_types`. -/
def mixed_base : List PyVal :=
  [PyVal.int 42, PyVal.str "hello", PyVal.float (314 / 100), PyVal.none, PyVal.bool true,
   PyVal.intList [1, 2, 3], PyVal.str "world", PyVal.int (-17), PyVal.bool false,
   PyVal.strDict [("key", "value")], PyVal.int 0, PyVal.str "", PyVal.intList [],
   PyVal.strDict [], PyVal.str "Python", PyVal.int 100, PyVal.float (2718 / 1000),
   PyVal.intSet [1, 2], PyVal.intTuple [1, 2, 3]]

/-- `generate_mixed_types()`: the fixed base list repeated 5 times; it performs
no draw, so the source state is returned unchanged. -/
def generate_mixed_types (s : RState) : List PyVal × RState :=
  (mixed_base ++ mixed_base ++ mixed_base ++ mixed_base ++ mixed_base, s)

/-! ### Pattern data generators -/

def email_domains : List String :=
  ["gmail.com", "yahoo.com", "company.com", "university.edu"]
def email_text_parts : List String :=
  ["Contact us at", "Send feedback to", "Email:", "Reach out to", "For support, contact"]

def emailsGo : Nat → RState → List String × RState
  | 0, s => ([], s)
  | k + 1, s =>
    let pu := randFloat s
    if pu.1 > 3 / 10 then
      let pn := listDraws (choiceD ascii_lowercase 'a') 8 pu.2
      let pd := choiceD email_domains "" pn.2
      let pt := choiceD email_text_parts "" pd.2
      let text := pt.1 ++ " " ++ String.mk pn.1 ++ "@" ++ pd.1
      let pz := randFloat pt.2
      if pz.1 > 1 / 2 then
        let p1 := randint 100 999 pz.2
        let p2 := randint 1000 9999 p1.2
        let pr := emailsGo k p2.2
        ((text ++ " or call " ++ toString p1.1 ++ "-" ++ toString p2.1) :: pr.1, pr.2)
      else
        let pr := emailsGo k pz.2
        (text :: pr.1, pr.2)
    else
      let pr := emailsGo k pu.2
      ("This line contains no email address." :: pr.1, pr.2)

/-- `generate_emails_text()`: 30 lines, 70% of which contain an email. -/
def generate_emails_text (s : RState) : List String × RState := emailsGo 30 s

/-- `[i**2 for i in range(1, 11)]`. -/
def pattern_squares : List Int := (List.range 10).map (fun (i : Nat) => ((i : Int) + 1) ^ 2)
def pattern_primes : List Int :=
  [2, 3, 5, 7, 11, 13, 17, 19, 23, 29, 31, 37, 41, 43, 47]
def pattern_fibs : List Int := [1, 1, 2, 3, 5, 8, 13, 21, 34, 55, 89]

/-- Draw-driven selection shuffle: repeatedly pick an element at a drawn index
and remove it; produces a permutation of the input. -/
def shuffleGo : Nat → List Int → RState → List Int × RState
  | 0, l, s => (l, s)
  | _ + 1, [], s => ([], s)
  | fuel + 1, a :: l, s =>
    let p := randNat s
    let x := (a :: l).getD (p.1 % (a :: l).length) a
    let pr := shuffleGo fuel ((a :: l).erase x) p.2
    (x :: pr.1, pr.2)

/-- `random.shuffle` on an integer list. -/
def pyShuffle (l : List Int) (s : RState) : List Int × RState := shuffleGo l.length l s

/-- `generate_pattern_numbers()`: squares ++ primes ++ Fibonacci prefix ++ 50
uniform randoms in `[1, 100]`, then shuffled. -/
def generate_pattern_numbers (s : RState) : List Int × RState :=
  let prand := listDraws (randint 1 100) 50 s
  pyShuffle (pattern_squares ++ pattern_primes ++ pattern_fibs ++ prand.1) prand.2

/-! ### The aggregate generator -/

/-- The dataset mapping returned by `generate_all_datasets` (its keys are fixed,
so it is modelled as a record with one field per key). -/
structure Datasets where
  numbers : Except String (List ℚ)
  floats : Except String (List ℚ)
  strings : List String
  words : List String
  sentences : List String
  students : List Student
  products : List Product
  transactions : List Transaction
  logs : List LogEntry
  matrix : List (List Int)
  grades : List (String × List (String × Int))
  time_series : List TSPoint
  users : List User
  mixed_types : List PyVal
  emails_text : List String
  pattern_numbers : List Int

/-- `generate_all_datasets()`: every generator run in the source's dict-literal
order against the shared source; `now` is the wall clock at invocation time. -/
def generate_all_datasets (now : Int) (s : RState) : Datasets × RState :=
  let p1 := generate_numbers 100 (-100) 100 "int" s
  let p2 := generate_numbers 100 (-100) 100 "float" p1.2
  let p3 := generate_strings 50 3 15 p2.2
  let p4 := generate_words 100 p3.2
  let p5 := generate_sentences 30 p4.2
  let p6 := generate_students 50 p5.2
  let p7 := generate_products 100 p6.2
  let p8 := generate_transactions 200 now p7.2
  let p9 := generate_logs 500 now p8.2
  let p10 := generate_matrix 5 5 0 10 p9.2
  let p11 := generate_grades_dict 20 5 p10.2
  let p12 := generate_time_series 30 100 now p11.2
  let p13 := generate_user_data 100 now p12.2
  let p14 := generate_mixed_types p13.2
  let p15 := generate_emails_text p14.2
  let p16 := generate_pattern_numbers p15.2
  (⟨p1.1, p2.1, p3.1, p4.1, p5.1, p6.1, p7.1, p8.1, p9.1, p10.1, p11.1, p12.1,
    p13.1, p14.1, p15.1, p16.1⟩, p16.2)

/-- The state of the shared source after the seven generators that precede
`generate_transactions` inside `generate_all_datasets` (none of them reads the
wall clock). -/
def stateAfterProducts (s : RState) : RState :=
  (generate_products 100 (generate_students 50 (generate_sentences 30 (generate_words 100
    (generate_strings 50 3 15 (generate_numbers 100 (-100) 100 "float"
      (generate_numbers 100 (-100) 100 "int" s).2).2).2).2).2).2).2

/-- A concrete random source (all raw draws are 0), standing in for one
possible seeded source when instantiating theorems on explicit inputs. -/
def zeroState : RState := ⟨fun _ => 0, 0⟩

/-- A concrete source whose first draw selects the maximal day offset (90) and
whose second the maximal hour offset (23) drawn by `generate_transactions`. -/
def maxFirstState : RState := ⟨fun p => if p = 0 then 90 else if p = 1 then 23 else 0, 0⟩

/-! ## Lemmas about the random primitives -/

theorem randint_bounds {a b : Int} (h : a ≤ b) (s : RState) :
    a ≤ (randint a b s).1 ∧ (randint a b s).1 ≤ b := by
  unfold randint randNat
  dsimp only
  have hpos : 0 < (b - a + 1).toNat := by omega
  have hlt : s.stream s.pos % (b - a + 1).toNat < (b - a + 1).toNat :=
    Nat.mod_lt _ hpos
  have hlt' : ((s.stream s.pos % (b - a + 1).toNat : Nat) : Int) < ((b - a + 1).toNat : Int) :=
    Int.ofNat_lt.mpr hlt
  have hnn : (0 : Int) ≤ ((s.stream s.pos % (b - a + 1).toNat : Nat) : Int) :=
    Int.ofNat_nonneg _
  omega

theorem randFloat_bounds (s : RState) : 0 ≤ (randFloat s).1 ∧ (randFloat s).1 < 1 := by
  unfold randFloat randNat
  dsimp only
  constructor
  · positivity
  · rw [div_lt_one (by norm_num)]
    exact_mod_cast Nat.mod_lt _ (by norm_num)

theorem uniform_bounds {a b : ℚ} (h : a ≤ b) (s : RState) :
    a ≤ (uniform a b s).1 ∧ (uniform a b s).1 ≤ b := by
  obtain ⟨h0, h1⟩ := randFloat_bounds s
  unfold uniform
  dsimp only
  have hba : (0 : ℚ) ≤ b - a := by linarith
  constructor
  · nlinarith [mul_nonneg hba h0]
  · nlinarith [mul_nonneg hba (by linarith : (0 : ℚ) ≤ 1 - (randFloat s).1)]

theorem choiceD_mem {α : Type} {l : List α} (hl : l ≠ []) (d : α) (s : RState) :
    (choiceD l d s).1 ∈ l := by
  unfold choiceD randNat
  dsimp only
  have hp : s.stream s.pos % l.length < l.length :=
    Nat.mod_lt _ (List.length_pos.mpr hl)
  rw [List.getD_eq_getElem?_getD, List.getElem?_eq_getElem hp]
  exact List.getElem_mem hp

theorem listDraws_length {α : Type} (f : RState → α × RState) (n : Nat) (s : RState) :
    (listDraws f n s).1.length = n := by
  induction n generalizing s with
  | zero => rfl
  | succ k ih => simp [listDraws, ih]

theorem listDraws_forall {α : Type} {f : RState → α × RState} {P : α → Prop}
    (hf : ∀ s, P (f s).1) (n : Nat) (s : RState) :
    ∀ x ∈ (listDraws f n s).1, P x := by
  induction n generalizing s with
  | zero => intro x hx; simp [listDraws] at hx
  | succ k ih =>
    intro x hx
    simp only [listDraws, List.mem_cons] at hx
    rcases hx with h | h
    · exact h ▸ hf s
    · exact ih _ x h

/-! ## Lemmas about `pyRound` -/

theorem round_mono_q {x y : ℚ} (h : x ≤ y) : round x ≤ round y := by
  rw [round_eq, round_eq]
  exact Int.floor_mono (by linarith)

theorem pyRound_mono (nd : Nat) {x y : ℚ} (h : x ≤ y) : pyRound nd x ≤ pyRound nd y := by
  unfold pyRound
  have hpow : (0 : ℚ) < 10 ^ nd := by positivity
  rw [div_le_div_iff_of_pos_right hpow]
  exact_mod_cast round_mono_q (by nlinarith)

theorem pyRound_int_div (nd : Nat) (z : ℤ) :
    pyRound nd ((z : ℚ) / 10 ^ nd) = (z : ℚ) / 10 ^ nd := by
  unfold pyRound
  rw [div_mul_cancel₀ _ (by positivity : (10 : ℚ) ^ nd ≠ 0), round_intCast]

theorem pyRound_le_of_le {k : Nat} {q : ℚ} {z : ℤ} (h : q ≤ (z : ℚ) / 10 ^ k) :
    pyRound k q ≤ (z : ℚ) / 10 ^ k := by
  calc pyRound k q ≤ pyRound k ((z : ℚ) / 10 ^ k) := pyRound_mono k h
  _ = (z : ℚ) / 10 ^ k := pyRound_int_div k z

theorem le_pyRound_of_le {k : Nat} {q : ℚ} {z : ℤ} (h : (z : ℚ) / 10 ^ k ≤ q) :
    (z : ℚ) / 10 ^ k ≤ pyRound k q := by
  calc (z : ℚ) / 10 ^ k = pyRound k ((z : ℚ) / 10 ^ k) := (pyRound_int_div k z).symm
  _ ≤ pyRound k q := pyRound_mono k h

theorem pyRound_nonneg {nd : Nat} {q : ℚ} (h : 0 ≤ q) : 0 ≤ pyRound nd q := by
  have h0 : ((0 : ℤ) : ℚ) / 10 ^ nd ≤ q := by simpa using h
  simpa using le_pyRound_of_le h0

theorem pyRound_den (nd : Nat) (q : ℚ) : ∃ z : ℤ, pyRound nd q = (z : ℚ) / 10 ^ nd :=
  ⟨round (q * 10 ^ nd), rfl⟩

theorem pyRound2_den (q : ℚ) : ∃ z : ℤ, pyRound 2 q = (z : ℚ) / 100 := by
  obtain ⟨z, hz⟩ := pyRound_den 2 q
  exact ⟨z, by rw [hz]; norm_num⟩

theorem pyRound1_den (q : ℚ) : ∃ z : ℤ, pyRound 1 q = (z : ℚ) / 10 := by
  obtain ⟨z, hz⟩ := pyRound_den 1 q
  exact ⟨z, by rw [hz]; norm_num⟩

/-! ## Length lemmas for the loop bodies -/

theorem stringsGo_length (a b : Int) (n : Nat) (s : RState) :
    (stringsGo a b n s).1.length = n := by
  induction n generalizing s with
  | zero => rfl
  | succ k ih => simp [stringsGo, ih]

theorem wordsGo_length (n : Nat) (s : RState) : (wordsGo n s).1.length = n := by
  induction n generalizing s with
  | zero => rfl
  | succ k ih => simp [wordsGo, ih]

theorem sentencesGo_length (n : Nat) (s : RState) : (sentencesGo n s).1.length = n := by
  induction n generalizing s with
  | zero => rfl
  | succ k ih =>
    simp only [sentencesGo]
    split
    · simp [ih]
    · simp [ih]

theorem studentsGo_length (n : Nat) (s : RState) : (studentsGo n s).1.length = n := by
  induction n generalizing s with
  | zero => rfl
  | succ k ih => simp [studentsGo, ih]

theorem productsGo_length (i n : Nat) (s : RState) : (productsGo i n s).1.length = n := by
  induction n generalizing i s with
  | zero => rfl
  | succ k ih => simp [productsGo, ih]

theorem transGo_length (st : Int) (i n : Nat) (s : RState) :
    (transGo st i n s).1.length = n := by
  induction n generalizing i s with
  | zero => rfl
  | succ k ih => simp [transGo, ih]

theorem logsGo_length (st : Int) (n : Nat) (s : RState) : (logsGo st n s).1.length = n := by
  induction n generalizing s with
  | zero => rfl
  | succ k ih => simp [logsGo, ih]

theorem matrixGo_length (cols : Nat) (a b : Int) (n : Nat) (s : RState) :
    (matrixGo cols a b n s).1.length = n := by
  induction n generalizing s with
  | zero => rfl
  | succ k ih => simp [matrixGo, ih]

theorem matrixGo_row_length (cols : Nat) (a b : Int) (n : Nat) (s : RState) :
    ∀ row ∈ (matrixGo cols a b n s).1, row.length = cols := by
  induction n generalizing s with
  | zero => intro row hr; simp [matrixGo] at hr
  | succ k ih =>
    intro row hr
    simp only [matrixGo, List.mem_cons] at hr
    rcases hr with h | h
    · subst h; exact listDraws_length _ _ _
    · exact ih _ row h

theorem tsGo_length (st : Int) (n i : Nat) (v : ℚ) (s : RState) :
    (tsGo st i n v s).1.length = n := by
  induction n generalizing i v s with
  | zero => rfl
  | succ k ih => simp [tsGo, ih]

theorem usersGo_length (now : Int) (i n : Nat) (s : RState) :
    (usersGo now i n s).1.length = n := by
  induction n generalizing i s with
  | zero => rfl
  | succ k ih => simp [usersGo, ih]

/-! ## State lemmas

The effect of each generator on the shared random source depends only on the
draws themselves — never on the wall clock `now`, the loop index, or the
running value of the random walk. -/

theorem transGo_state (st1 st2 : Int) (n : Nat) :
    ∀ (i1 i2 : Nat) (s : RState), (transGo st1 i1 n s).2 = (transGo st2 i2 n s).2 := by
  induction n with
  | zero => intros; rfl
  | succ k ih =>
    intro i1 i2 s
    simp only [transGo]
    exact ih _ _ _

theorem logsGo_state (st1 st2 : Int) (n : Nat) :
    ∀ s : RState, (logsGo st1 n s).2 = (logsGo st2 n s).2 := by
  induction n with
  | zero => intros; rfl
  | succ k ih =>
    intro s
    simp only [logsGo]
    exact ih _

theorem tsGo_state (st1 st2 : Int) (n : Nat) :
    ∀ (i1 i2 : Nat) (v1 v2 : ℚ) (s : RState),
      (tsGo st1 i1 n v1 s).2 = (tsGo st2 i2 n v2 s).2 := by
  induction n with
  | zero => intros; rfl
  | succ k ih =>
    intro i1 i2 v1 v2 s
    simp only [tsGo]
    exact ih _ _ _ _ _

theorem listDraws_state_ext {α β : Type} (f : RState → α × RState) (g : RState → β × RState)
    (h : ∀ s, (f s).2 = (g s).2) (n : Nat) :
    ∀ s : RState, (listDraws f n s).2 = (listDraws g n s).2 := by
  induction n with
  | zero => intros; rfl
  | succ k ih =>
    intro s
    simp only [listDraws]
    rw [h s]
    exact ih _

theorem usersGo_state (n1 n2 : Int) (n : Nat) :
    ∀ (i1 i2 : Nat) (s : RState), (usersGo n1 i1 n s).2 = (usersGo n2 i2 n s).2 := by
  induction n with
  | zero => intros; rfl
  | succ k ih =>
    intro i1 i2 s
    simp only [usersGo]
    rw [listDraws_state_ext (purchaseDraw n1) (purchaseDraw n2) (fun _ => rfl)]
    exact ih _ _ _

theorem generate_transactions_state (n : Nat) (t : Int) (s : RState) :
    (generate_transactions n t s).2 = (generate_transactions n 0 s).2 :=
  transGo_state _ _ n 0 0 s

theorem generate_logs_state (n : Nat) (t : Int) (s : RState) :
    (generate_logs n t s).2 = (generate_logs n 0 s).2 := logsGo_state _ _ n s

theorem generate_time_series_state (days : Nat) (initial : ℚ) (t : Int) (s : RState) :
    (generate_time_series days initial t s).2 = (generate_time_series days initial 0 s).2 :=
  tsGo_state _ _ days 0 0 initial initial s

theorem generate_user_data_state (n : Nat) (t : Int) (s : RState) :
    (generate_user_data n t s).2 = (generate_user_data n 0 s).2 := usersGo_state _ _ n 0 0 s

/-! ## The dates of `generate_transactions` shift exactly with `start_date` -/

theorem transGo_dates (st1 st2 : Int) (n : Nat) :
    ∀ (i : Nat) (s : RState),
      (transGo st1 i n s).1.map Transaction.date =
        ((transGo st2 i n s).1.map Transaction.date).map (fun d => d + (st1 - st2)) := by
  induction n with
  | zero => intros; rfl
  | succ k ih =>
    intro i s
    simp only [transGo, List.map_cons]
    congr 1
    · ring
    · exact ih _ _

theorem transGo_date_bounds (st : Int) (n : Nat) :
    ∀ (i : Nat) (s : RState), ∀ tr ∈ (transGo st i n s).1,
      st ≤ tr.date ∧ tr.date ≤ st + 90 * 86400 + 23 * 3600 := by
  induction n with
  | zero => intro i s tr h; simp [transGo] at h
  | succ k ih =>
    intro i s tr h
    simp only [transGo, List.mem_cons] at h
    rcases h with h | h
    · subst h
      obtain ⟨hd0, hd1⟩ := randint_bounds (by decide : (0 : Int) ≤ 90) s
      obtain ⟨hh0, hh1⟩ := randint_bounds (by decide : (0 : Int) ≤ 23) (randint 0 90 s).2
      dsimp only
      omega
    · exact ih _ _ tr h

/-! ## The shuffle produces a permutation -/

theorem shuffleGo_perm : ∀ (fuel : Nat) (l : List Int) (s : RState),
    l.length ≤ fuel → (shuffleGo fuel l s).1.Perm l := by
  intro fuel
  induction fuel with
  | zero =>
    intro l s h
    have : l = [] := List.length_eq_zero.mp (Nat.le_zero.mp h)
    subst this
    exact List.Perm.refl _
  | succ f ih =>
    intro l s h
    cases l with
    | nil => exact List.Perm.refl _
    | cons a t =>
      simp only [shuffleGo]
      have hlt : (randNat s).1 % (a :: t).length < (a :: t).length :=
        Nat.mod_lt _ (by simp)
      have hmem : (a :: t).getD ((randNat s).1 % (a :: t).length) a ∈ a :: t := by
        rw [List.getD_eq_getElem?_getD, List.getElem?_eq_getElem hlt]
        exact List.getElem_mem hlt
      have herase := List.perm_cons_erase hmem
      have hlen : ((a :: t).erase ((a :: t).getD ((randNat s).1 % (a :: t).length) a)).length ≤ f := by
        rw [List.length_erase_of_mem hmem]
        simp only [List.length_cons] at h ⊢
        omega
      have htail := ih _ (randNat s).2 hlen
      exact (htail.cons _).trans herase.symm

theorem pyShuffle_perm (l : List Int) (s : RState) : (pyShuffle l s).1.Perm l :=
  shuffleGo_perm l.length l s le_rfl

/-! ## Range and rounding lemmas for the structured generators -/

theorem pyRound2_bounds {a b : ℤ} {q : ℚ} (h1 : (a : ℚ) / 100 ≤ q) (h2 : q ≤ (b : ℚ) / 100) :
    (a : ℚ) / 100 ≤ pyRound 2 q ∧ pyRound 2 q ≤ (b : ℚ) / 100 := by
  have e : ((10 : ℚ) ^ (2 : Nat)) = 100 := by norm_num
  constructor
  · have := le_pyRound_of_le (k := 2) (z := a) (q := q) (by rw [e]; exact h1)
    rwa [e] at this
  · have := pyRound_le_of_le (k := 2) (z := b) (q := q) (by rw [e]; exact h2)
    rwa [e] at this

theorem productsGo_price (n : Nat) :
    ∀ (i : Nat) (s : RState), ∀ p ∈ (productsGo i n s).1, ∃ z : ℤ, p.price = (z : ℚ) / 100 := by
  induction n with
  | zero => intro i s p h; simp [productsGo] at h
  | succ k ih =>
    intro i s p h
    simp only [productsGo, List.mem_cons] at h
    rcases h with h | h
    · subst h; exact pyRound2_den _
    · exact ih _ _ p h

theorem studentsGo_grade (n : Nat) :
    ∀ (s : RState), ∀ st ∈ (studentsGo n s).1, ∃ z : ℤ, st.grade = (z : ℚ) / 10 := by
  induction n with
  | zero => intro s st h; simp [studentsGo] at h
  | succ k ih =>
    intro s st h
    simp only [studentsGo, List.mem_cons] at h
    rcases h with h | h
    · subst h; exact pyRound1_den _
    · exact ih _ st h

theorem purchaseDraw_price (now : Int) (s : RState) :
    (10 : ℚ) ≤ (purchaseDraw now s).1.price ∧ (purchaseDraw now s).1.price ≤ 200 ∧
      ∃ z : ℤ, (purchaseDraw now s).1.price = (z : ℚ) / 100 := by
  obtain ⟨hu0, hu1⟩ := uniform_bounds (by norm_num : (10 : ℚ) ≤ 200) (randint 1 50 s).2
  have e10 : ((1000 : ℤ) : ℚ) / 100 = 10 := by norm_num
  have e200 : ((20000 : ℤ) : ℚ) / 100 = 200 := by norm_num
  obtain ⟨hl, hr⟩ := pyRound2_bounds (a := 1000) (b := 20000)
    (q := (uniform 10 200 (randint 1 50 s).2).1)
    (by rw [e10]; exact hu0) (by rw [e200]; exact hu1)
  rw [e10] at hl
  rw [e200] at hr
  exact ⟨hl, hr, pyRound2_den _⟩

theorem randint_toNat_le {a b : Int} (h : a ≤ b) (hb : 0 ≤ b) (s : RState) :
    (randint a b s).1.toNat ≤ b.toNat := by
  have := (randint_bounds h s).2
  omega

theorem usersGo_purchases (now : Int) (n : Nat) :
    ∀ (i : Nat) (s : RState), ∀ u ∈ (usersGo now i n s).1,
      u.purchases.length ≤ 10 ∧
      ∀ pur ∈ u.purchases,
        (10 : ℚ) ≤ pur.price ∧ pur.price ≤ 200 ∧ ∃ z : ℤ, pur.price = (z : ℚ) / 100 := by
  induction n with
  | zero => intro i s u h; simp [usersGo] at h
  | succ k ih =>
    intro i s u h
    simp only [usersGo, List.mem_cons] at h
    rcases h with h | h
    · subst h
      dsimp only
      constructor
      · rw [listDraws_length]
        exact randint_toNat_le (by decide) (by decide) _
      · exact listDraws_forall (fun s' => purchaseDraw_price now s') _ _
    · exact ih _ _ u h

theorem matrixGo_bounds {a b : Int} (hab : a ≤ b) (cols : Nat) (n : Nat) :
    ∀ (s : RState), ∀ row ∈ (matrixGo cols a b n s).1, ∀ x ∈ row, a ≤ x ∧ x ≤ b := by
  induction n with
  | zero => intro s row h; simp [matrixGo] at h
  | succ k ih =>
    intro s row h
    simp only [matrixGo, List.mem_cons] at h
    rcases h with h | h
    · subst h
      exact listDraws_forall (fun s' => randint_bounds hab s') _ _
    · exact ih _ row h

theorem gradesInnerGo_bounds (as : List String) :
    ∀ (s : RState), ∀ p ∈ (gradesInnerGo as s).1, 60 ≤ p.2 ∧ p.2 ≤ 100 := by
  induction as with
  | nil => intro s p h; simp [gradesInnerGo] at h
  | cons a rest ih =>
    intro s p h
    simp only [gradesInnerGo, List.mem_cons] at h
    rcases h with h | h
    · subst h; exact randint_bounds (by decide) s
    · exact ih _ p h

theorem gradesOuterGo_bounds (as sts : List String) :
    ∀ (s : RState), ∀ st ∈ (gradesOuterGo as sts s).1, ∀ g ∈ st.2, 60 ≤ g.2 ∧ g.2 ≤ 100 := by
  induction sts with
  | nil => intro s st h; simp [gradesOuterGo] at h
  | cons a rest ih =>
    intro s st h
    simp only [gradesOuterGo, List.mem_cons] at h
    rcases h with h | h
    · subst h; exact gradesInnerGo_bounds as s
    · exact ih _ st h

/-! ## The time-series points: exact dates and non-negative values -/

theorem tsGo_dates (st : Int) (n : Nat) :
    ∀ (i : Nat) (v : ℚ) (s : RState),
      (tsGo st i n v s).1.map TSPoint.date =
        (List.range n).map (fun (j : Nat) => st + ((i : Int) + (j : Int)) * 86400) := by
  induction n with
  | zero => intros; rfl
  | succ k ih =>
    intro i v s
    rw [List.range_succ_eq_map]
    simp only [tsGo, List.map_cons, List.map_map]
    congr 1
    rw [ih]
    apply List.map_congr_left
    intro x hx
    simp only [Function.comp_apply]
    push_cast
    ring

theorem tsGo_values (st : Int) (n : Nat) :
    ∀ (i : Nat) (v : ℚ) (s : RState), ∀ p ∈ (tsGo st i n v s).1, 0 ≤ p.value := by
  induction n with
  | zero => intro i v s p h; simp [tsGo] at h
  | succ k ih =>
    intro i v s p h
    simp only [tsGo, List.mem_cons] at h
    rcases h with h | h
    · subst h
      dsimp only
      exact pyRound_nonneg (le_max_left _ _)
    · exact ih _ _ _ p h

/-! ## Projections of `generate_all_datasets` (all definitional) -/

theorem allDatasets_transactions (t : Int) (s : RState) :
    (generate_all_datasets t s).1.transactions =
      (generate_transactions 200 t (stateAfterProducts s)).1 := by
  dsimp only [generate_all_datasets, stateAfterProducts]

theorem allDatasets_matrix (t : Int) (s : RState) :
    (generate_all_datasets t s).1.matrix =
      (generate_matrix 5 5 0 10 (generate_logs 500 t (generate_transactions 200 t
        (stateAfterProducts s)).2).2).1 := by
  dsimp only [generate_all_datasets, stateAfterProducts]

theorem allDatasets_grades (t : Int) (s : RState) :
    (generate_all_datasets t s).1.grades =
      (generate_grades_dict 20 5 (generate_matrix 5 5 0 10 (generate_logs 500 t
        (generate_transactions 200 t (stateAfterProducts s)).2).2).2).1 := by
  dsimp only [generate_all_datasets, stateAfterProducts]

theorem allDatasets_emails (t : Int) (s : RState) :
    (generate_all_datasets t s).1.emails_text =
      (generate_emails_text (generate_user_data 100 t (generate_time_series 30 100 t
        (generate_grades_dict 20 5 (generate_matrix 5 5 0 10 (generate_logs 500 t
          (generate_transactions 200 t (stateAfterProducts s)).2).2).2).2).2).2).1 := by
  dsimp only [generate_all_datasets, stateAfterProducts, generate_mixed_types]

theorem allDatasets_pattern (t : Int) (s : RState) :
    (generate_all_datasets t s).1.pattern_numbers =
      (generate_pattern_numbers (generate_emails_text (generate_user_data 100 t
        (generate_time_series 30 100 t (generate_grades_dict 20 5 (generate_matrix 5 5 0 10
          (generate_logs 500 t (generate_transactions 200 t
            (stateAfterProducts s)).2).2).2).2).2).2).2).1 := by
  dsimp only [generate_all_datasets, stateAfterProducts, generate_mixed_types]

/-! ## Unfolding equations for `generate_numbers` at the two valid kinds -/

theorem generate_numbers_int_eq (n : Nat) (a b : Int) (s : RState) :
    generate_numbers n a b "int" s =
      (Except.ok ((listDraws (randint a b) n s).1.map (fun (z : Int) => (z : ℚ))),
       (listDraws (randint a b) n s).2) := rfl

theorem generate_numbers_float_eq (n : Nat) (a b : Int) (s : RState) :
    generate_numbers n a b "float" s =
      (Except.ok (listDraws (uniform (a : ℚ) (b : ℚ)) n s).1,
       (listDraws (uniform (a : ℚ) (b : ℚ)) n s).2) := rfl

/-! ## Claim theorems -/

/-- C10: `generate_mixed_types` performs no draw from the shared random source
(the state comes back unchanged) and returns the same fixed list on every call
regardless of the source state: the fixed 19-element heterogeneous `mixed_base`
sequence repeated 5 times, of total length 95; in particular any two calls
return equal outputs. -/
theorem c10_mixed_types_fixed (s s' : RState) :
    (generate_mixed_types s).2 = s ∧
    (generate_mixed_types s).1 =
      mixed_base ++ mixed_base ++ mixed_base ++ mixed_base ++ mixed_base ∧
    mixed_base.length = 19 ∧
    (generate_mixed_types s).1.length = 95 ∧
    (generate_mixed_types s).1 = (generate_mixed_types s').1 :=
  ⟨rfl, rfl, rfl, rfl, rfl⟩

/-- C3: for every non-negative `n`, each count-parameterized generator returns
a list of exactly `n` items (`generate_numbers` in both kinds,
`generate_strings`, `generate_words`, `generate_sentences`,
`generate_students`, `generate_products`, `generate_transactions`,
`generate_logs`, `generate_user_data`), and `generate_matrix rows cols` returns
exactly `rows` rows of exactly `cols` entries each. -/
theorem c3_generator_lengths (n rows cols : Nat) (a b minl maxl now : Int) (s : RState) :
    (generate_numbers n a b "int" s).1.toOption.map List.length = some n ∧
    (generate_numbers n a b "float" s).1.toOption.map List.length = some n ∧
    (generate_strings n minl maxl s).1.length = n ∧
    (generate_words n s).1.length = n ∧
    (generate_sentences n s).1.length = n ∧
    (generate_students n s).1.length = n ∧
    (generate_products n s).1.length = n ∧
    (generate_transactions n now s).1.length = n ∧
    (generate_logs n now s).1.length = n ∧
    (generate_user_data n now s).1.length = n ∧
    (generate_matrix rows cols a b s).1.length = rows ∧
    (∀ row ∈ (generate_matrix rows cols a b s).1, row.length = cols) := by
  refine ⟨?_, ?_, stringsGo_length _ _ _ _, wordsGo_length _ _, sentencesGo_length _ _,
    studentsGo_length _ _, productsGo_length _ _ _, transGo_length _ _ _ _,
    logsGo_length _ _ _, usersGo_length _ _ _ _, matrixGo_length _ _ _ _ _,
    matrixGo_row_length _ _ _ _ _⟩
  · rw [generate_numbers_int_eq]
    show some (((listDraws (randint a b) n s).1.map (fun (z : Int) => (z : ℚ))).length) = some n
    rw [List.length_map, listDraws_length]
  · rw [generate_numbers_float_eq]
    show some ((listDraws (uniform (a : ℚ) (b : ℚ)) n s).1.length) = some n
    rw [listDraws_length]

/-- C3 witness: the length facts instantiated on concrete inputs (`n = 2`,
a 2×3 matrix, the all-zero draw stream). -/
theorem c3_generator_lengths_witness :
    (generate_matrix 2 3 0 9 zeroState).1.length = 2 ∧ [0, 0, 0].length = 3 := by
  refine ⟨(c3_generator_lengths 2 2 3 0 9 0 9 0 zeroState).2.2.2.2.2.2.2.2.2.2.1, ?_⟩
  exact (c3_generator_lengths 2 2 3 0 9 0 9 0 zeroState).2.2.2.2.2.2.2.2.2.2.2
    [0, 0, 0] (by decide)

/-- C4: `generate_numbers` fails exactly when its kind parameter is neither
`"int"` nor `"float"`; on failure it raises before producing any output (the
error value is returned and the random source is untouched). Every other
generator of the library is a total function of its parameters (they return
plain values, not `Except`), so no other generator can raise; the hypothesis
`a ≤ b` records the documented parameter domain of the range parameters. -/
theorem c4_numbers_error (n : Nat) (a b : Int) (k : String) (s : RState) (hab : a ≤ b) :
    ((generate_numbers n a b k s).1.toOption.isSome = true ↔ (k = "int" ∨ k = "float")) ∧
    (¬(k = "int" ∨ k = "float") →
      (generate_numbers n a b k s).1 = Except.error "type must be int or float" ∧
      (generate_numbers n a b k s).2 = s) := by
  by_cases h1 : k = "int"
  · subst h1
    rw [generate_numbers_int_eq]
    simp [Except.toOption]
  · by_cases h2 : k = "float"
    · subst h2
      rw [generate_numbers_float_eq]
      simp [Except.toOption]
    · simp [generate_numbers, h1, h2, Except.toOption]

/-- C4 witness: `generate_numbers 3 0 5 "bogus"` fails with the error value and
leaves the source untouched. -/
theorem c4_numbers_error_witness :
    (generate_numbers 3 0 5 "bogus" zeroState).1 = Except.error "type must be int or float" ∧
    (generate_numbers 3 0 5 "bogus" zeroState).2 = zeroState :=
  (c4_numbers_error 3 0 5 "bogus" zeroState (by decide)).2 (by decide)

/-- C5: under the precondition `min ≤ max`, every value produced by the numeric
generators lies in the inclusive range: the elements of
`generate_numbers n min max kind` for both kinds, every entry of
`generate_matrix rows cols min max`, and every grade of `generate_grades_dict`
lies in `[60, 100]`. -/
theorem c5_numeric_ranges (a b : Int) (hab : a ≤ b) (n rows cols ns na : Nat) (s : RState) :
    (∀ l, (generate_numbers n a b "int" s).1.toOption = some l →
      ∀ x ∈ l, (a : ℚ) ≤ x ∧ x ≤ (b : ℚ)) ∧
    (∀ l, (generate_numbers n a b "float" s).1.toOption = some l →
      ∀ x ∈ l, (a : ℚ) ≤ x ∧ x ≤ (b : ℚ)) ∧
    (∀ row ∈ (generate_matrix rows cols a b s).1, ∀ x ∈ row, a ≤ x ∧ x ≤ b) ∧
    (∀ p ∈ (generate_grades_dict ns na s).1, ∀ g ∈ p.2, 60 ≤ g.2 ∧ g.2 ≤ 100) := by
  refine ⟨?_, ?_, matrixGo_bounds hab cols rows s, gradesOuterGo_bounds _ _ s⟩
  · intro l hl x hx
    rw [generate_numbers_int_eq] at hl
    simp only [Except.toOption, Option.some.injEq] at hl
    subst hl
    simp only [List.mem_map] at hx
    obtain ⟨z, hz, rfl⟩ := hx
    have := listDraws_forall (P := fun y => a ≤ y ∧ y ≤ b)
      (fun s' => randint_bounds hab s') n s z hz
    exact ⟨by exact_mod_cast this.1, by exact_mod_cast this.2⟩
  · intro l hl x hx
    rw [generate_numbers_float_eq] at hl
    simp only [Except.toOption, Option.some.injEq] at hl
    subst hl
    exact listDraws_forall (P := fun y => (a : ℚ) ≤ y ∧ y ≤ (b : ℚ))
      (fun s' => uniform_bounds (by exact_mod_cast hab) s') n s x hx

/-- C5 witness: the range facts instantiated on `[0, 5]` with the all-zero
stream (the first drawn int is 0, the first grade is 60). -/
theorem c5_numeric_ranges_witness :
    (((0 : Int) : ℚ) ≤ (0 : ℚ) ∧ (0 : ℚ) ≤ ((5 : Int) : ℚ)) ∧
    ((60 : Int) ≤ (60 : Int) ∧ (60 : Int) ≤ (100 : Int)) := by
  constructor
  · exact (c5_numeric_ranges 0 5 (by decide) 1 1 1 1 1 zeroState).1 [0] (by decide) 0 (by decide)
  · exact (c5_numeric_ranges 0 5 (by decide) 1 1 1 1 1 zeroState).2.2.2
      ("Student_01", [("HW_1", 60)]) (by decide) ("HW_1", 60) (by decide)

/-- Dates of `generate_time_series`: consecutive calendar days starting at
`now - days * 86400`. -/
theorem generate_time_series_dates (days : Nat) (initial : ℚ) (now : Int) (s : RState) :
    (generate_time_series days initial now s).1.map TSPoint.date =
      (List.range days).map
        (fun (j : Nat) => now - (days : Int) * 86400 + (j : Int) * 86400) := by
  unfold generate_time_series
  rw [tsGo_dates]
  apply List.map_congr_left
  intro x hx
  push_cast
  ring

/-- C6: `generate_pattern_numbers` always returns a list of length exactly 86
containing the first 10 perfect squares and the 15 listed primes as
sub-multisets (order-independent, unaffected by the shuffle). -/
theorem c6_pattern_numbers (s : RState) :
    (generate_pattern_numbers s).1.length = 86 ∧
    ((([1, 4, 9, 16, 25, 36, 49, 64, 81, 100] : List Int) : Multiset Int) ≤
      ((generate_pattern_numbers s).1 : Multiset Int)) ∧
    ((([2, 3, 5, 7, 11, 13, 17, 19, 23, 29, 31, 37, 41, 43, 47] : List Int) : Multiset Int) ≤
      ((generate_pattern_numbers s).1 : Multiset Int)) := by
  have hperm : (generate_pattern_numbers s).1.Perm
      (pattern_squares ++ pattern_primes ++ pattern_fibs ++
        (listDraws (randint 1 100) 50 s).1) := by
    unfold generate_pattern_numbers
    exact pyShuffle_perm _ _
  have hms : ((generate_pattern_numbers s).1 : Multiset Int) =
      (pattern_squares : Multiset Int) + (pattern_primes : Multiset Int) +
      (pattern_fibs : Multiset Int) + ((listDraws (randint 1 100) 50 s).1 : Multiset Int) := by
    rw [Multiset.coe_add, Multiset.coe_add, Multiset.coe_add]
    exact Multiset.coe_eq_coe.mpr hperm
  refine ⟨?_, ?_, ?_⟩
  · rw [hperm.length_eq]
    simp [pattern_squares, pattern_primes, pattern_fibs, listDraws_length]
  · have hsq : ([1, 4, 9, 16, 25, 36, 49, 64, 81, 100] : List Int) = pattern_squares := by
      decide
    rw [hsq, hms]
    exact le_trans (le_trans (self_le_add_right _ _) (self_le_add_right _ _))
      (self_le_add_right _ _)
  · rw [show (([2, 3, 5, 7, 11, 13, 17, 19, 23, 29, 31, 37, 41, 43, 47] : List Int) :
      Multiset Int) = (pattern_primes : Multiset Int) from rfl, hms]
    exact le_trans (le_trans (le_trans le_add_self (self_le_add_right _ _))
      (self_le_add_right _ _)) le_rfl

/-- C7: `generate_time_series 10 100` returns exactly 10 points, on strictly
increasing consecutive calendar days, with every value non-negative. -/
theorem c7_time_series (now : Int) (s : RState) :
    (generate_time_series 10 100 now s).1.length = 10 ∧
    ((generate_time_series 10 100 now s).1.map TSPoint.date =
      (List.range 10).map (fun (j : Nat) => now - 10 * 86400 + (j : Int) * 86400)) ∧
    (generate_time_series 10 100 now s).1.Pairwise (fun p q => p.date < q.date) ∧
    (∀ p ∈ (generate_time_series 10 100 now s).1, 0 ≤ p.value) := by
  refine ⟨tsGo_length _ _ _ _ _, ?_, ?_, tsGo_values _ _ _ _ _⟩
  · rw [generate_time_series_dates]
    apply List.map_congr_left
    intro x hx
    push_cast
    ring
  · have hp : ((generate_time_series 10 100 now s).1.map TSPoint.date).Pairwise (· < ·) := by
      rw [generate_time_series_dates]
      refine List.Pairwise.map _ ?_ (List.pairwise_lt_range 10)
      intro a b hab
      omega
    exact List.pairwise_map.mp hp

/-- C7 witness: the first point of a concrete run (all-zero draws, `now = 0`)
has a non-negative value. -/
theorem c7_time_series_witness :
    ∃ p ∈ (generate_time_series 10 100 0 zeroState).1, (0 : ℚ) ≤ p.value := by
  have hlen : (generate_time_series 10 100 0 zeroState).1.length = 10 := tsGo_length _ _ _ _ _
  have hne : (generate_time_series 10 100 0 zeroState).1 ≠ [] := by
    intro h
    rw [h] at hlen
    simp at hlen
  exact ⟨_, List.head_mem hne, (c7_time_series 0 zeroState).2.2.2 _ (List.head_mem hne)⟩

/-- C8: every `Product.price` is an integer multiple of `1/100` (exactly 2
fractional digits after `round(x, 2)`) and every `Student.grade` an integer
multiple of `1/10` (exactly 1 fractional digit after `round(x, 1)`). -/
theorem c8_rounding (n m : Nat) (s1 s2 : RState) :
    (∀ p ∈ (generate_products n s1).1, ∃ z : ℤ, p.price = (z : ℚ) / 100) ∧
    (∀ st ∈ (generate_students m s2).1, ∃ z : ℤ, st.grade = (z : ℚ) / 10) :=
  ⟨productsGo_price n 0 s1, studentsGo_grade m s2⟩

/-- C8 witness: the first product generated from the all-zero stream has a
price that is an integer multiple of 1/100. -/
theorem c8_rounding_witness :
    ∃ p ∈ (generate_products 1 zeroState).1, ∃ z : ℤ, p.price = (z : ℚ) / 100 := by
  have hlen : (generate_products 1 zeroState).1.length = 1 := productsGo_length _ _ _
  have hne : (generate_products 1 zeroState).1 ≠ [] := by
    intro h
    rw [h] at hlen
    simp at hlen
  exact ⟨_, List.head_mem hne, (c8_rounding 1 1 zeroState zeroState).1 _ (List.head_mem hne)⟩

/-- C9: `generate_user_data 5` returns exactly 5 users; every purchase list has
length at most 10 (and trivially at least 0); every purchase price lies in
`[10, 200]` and is an integer multiple of `1/100` (rounded to 2 decimals).
Ownership of purchase sub-records is exclusive by construction: each purchase
is built from its own fresh draws inside one user's record (the embedding has
value semantics, so object sharing has no counterpart). -/
theorem c9_user_data (now : Int) (s : RState) :
    (generate_user_data 5 now s).1.length = 5 ∧
    ∀ u ∈ (generate_user_data 5 now s).1,
      u.purchases.length ≤ 10 ∧
      ∀ pur ∈ u.purchases,
        (10 : ℚ) ≤ pur.price ∧ pur.price ≤ 200 ∧ ∃ z : ℤ, pur.price = (z : ℚ) / 100 :=
  ⟨usersGo_length now 0 5 s, usersGo_purchases now 5 0 s⟩

/-- C9 witness: the first user of a concrete run (all-zero draws, `now = 0`)
has a purchase list of length at most 10. -/
theorem c9_user_data_witness :
    ∃ u ∈ (generate_user_data 5 0 zeroState).1, u.purchases.length ≤ 10 := by
  have hlen : (generate_user_data 5 0 zeroState).1.length = 5 := usersGo_length _ _ _ _
  have hne : (generate_user_data 5 0 zeroState).1 ≠ [] := by
    intro h
    rw [h] at hlen
    simp at hlen
  exact ⟨_, List.head_mem hne, ((c9_user_data 0 zeroState).2 _ (List.head_mem hne)).1⟩

/-- C2 (amended): every transaction date lies in the window from
`now - 90 days` to `now + 23 hours` — the day offset is drawn from `[0, 90]`
(91 distinct days) and the hour offset from `[0, 23]` on top of
`start = now - 90 days`, so dates can exceed the generation time by up to
23 hours. -/
theorem c2_transaction_date_window (n : Nat) (now : Int) (s : RState) :
    ∀ tr ∈ (generate_transactions n now s).1,
      now - 90 * 86400 ≤ tr.date ∧ tr.date ≤ now + 23 * 3600 := by
  intro tr htr
  have h := transGo_date_bounds (now - 90 * 86400) n 0 s tr htr
  omega

/-- C2 witness: the transaction generated from the all-zero stream at `now = 0`
lies inside the amended window. -/
theorem c2_transaction_date_window_witness :
    ∃ tr ∈ (generate_transactions 1 0 zeroState).1,
      (0 : Int) - 90 * 86400 ≤ tr.date ∧ tr.date ≤ 0 + 23 * 3600 := by
  have hlen : (generate_transactions 1 0 zeroState).1.length = 1 := transGo_length _ _ _ _
  have hne : (generate_transactions 1 0 zeroState).1 ≠ [] := by
    intro h
    rw [h] at hlen
    simp at hlen
  exact ⟨_, List.head_mem hne, c2_transaction_date_window 1 0 zeroState _ (List.head_mem hne)⟩

/-- C2 counterexample: with draws selecting day offset 90 and hour offset 23,
the transaction date is `now + 82800` seconds — 23 hours *after* generation
time, refuting `date ≤ generation_time`. -/
theorem c2_counterexample :
    ¬ ∀ tr ∈ (generate_transactions 1 0 maxFirstState).1,
        0 - 90 * 86400 ≤ tr.date ∧ tr.date ≤ 0 := by
  intro hall
  have hlen : (generate_transactions 1 0 maxFirstState).1.length = 1 := transGo_length _ _ _ _
  have hne : (generate_transactions 1 0 maxFirstState).1 ≠ [] := by
    intro h
    rw [h] at hlen
    simp at hlen
  have hdate : ((generate_transactions 1 0 maxFirstState).1.head hne).date = 82800 := rfl
  have h1 := hall _ (List.head_mem hne)
  omega

/-- `generate_transactions` unfolded to its loop (definitional). -/
theorem generate_transactions_eq (n : Nat) (now : Int) (s : RState) :
    generate_transactions n now s = transGo (now - 90 * 86400) 0 n s := rfl

/-- C1 (amended): with the seed re-applied (the same source state `s`), two
invocations of `generate_all_datasets` agree on every dataset key that does not
embed the generation time — `numbers`, `floats`, `strings`, `words`,
`sentences`, `students`, `products`, `matrix`, `grades`, `mixed_types`,
`emails_text`, `pattern_numbers` — whatever the wall-clock instants `t1`, `t2`
of the two invocations; and when the two invocations additionally happen at the
same instant, the outputs agree on every dataset key. -/
theorem c1_determinism_amended (t1 t2 : Int) (s : RState) :
    (generate_all_datasets t1 s).1.numbers = (generate_all_datasets t2 s).1.numbers ∧
    (generate_all_datasets t1 s).1.floats = (generate_all_datasets t2 s).1.floats ∧
    (generate_all_datasets t1 s).1.strings = (generate_all_datasets t2 s).1.strings ∧
    (generate_all_datasets t1 s).1.words = (generate_all_datasets t2 s).1.words ∧
    (generate_all_datasets t1 s).1.sentences = (generate_all_datasets t2 s).1.sentences ∧
    (generate_all_datasets t1 s).1.students = (generate_all_datasets t2 s).1.students ∧
    (generate_all_datasets t1 s).1.products = (generate_all_datasets t2 s).1.products ∧
    (generate_all_datasets t1 s).1.matrix = (generate_all_datasets t2 s).1.matrix ∧
    (generate_all_datasets t1 s).1.grades = (generate_all_datasets t2 s).1.grades ∧
    (generate_all_datasets t1 s).1.mixed_types = (generate_all_datasets t2 s).1.mixed_types ∧
    (generate_all_datasets t1 s).1.emails_text = (generate_all_datasets t2 s).1.emails_text ∧
    (generate_all_datasets t1 s).1.pattern_numbers =
      (generate_all_datasets t2 s).1.pattern_numbers ∧
    (t1 = t2 → generate_all_datasets t1 s = generate_all_datasets t2 s) := by
  refine ⟨?_, ?_, ?_, ?_, ?_, ?_, ?_, ?_, ?_, ?_, ?_, ?_, fun h => by rw [h]⟩
  · dsimp only [generate_all_datasets]
  · dsimp only [generate_all_datasets]
  · dsimp only [generate_all_datasets]
  · dsimp only [generate_all_datasets]
  · dsimp only [generate_all_datasets]
  · dsimp only [generate_all_datasets]
  · dsimp only [generate_all_datasets]
  · rw [allDatasets_matrix t1 s, allDatasets_matrix t2 s,
      generate_transactions_state 200 t1, generate_transactions_state 200 t2,
      generate_logs_state 500 t1, generate_logs_state 500 t2]
  · rw [allDatasets_grades t1 s, allDatasets_grades t2 s,
      generate_transactions_state 200 t1, generate_transactions_state 200 t2,
      generate_logs_state 500 t1, generate_logs_state 500 t2]
  · dsimp only [generate_all_datasets, generate_mixed_types]
  · rw [allDatasets_emails t1 s, allDatasets_emails t2 s,
      generate_transactions_state 200 t1, generate_transactions_state 200 t2,
      generate_logs_state 500 t1, generate_logs_state 500 t2,
      generate_time_series_state 30 100 t1, generate_time_series_state 30 100 t2,
      generate_user_data_state 100 t1, generate_user_data_state 100 t2]
  · rw [allDatasets_pattern t1 s, allDatasets_pattern t2 s,
      generate_transactions_state 200 t1, generate_transactions_state 200 t2,
      generate_logs_state 500 t1, generate_logs_state 500 t2,
      generate_time_series_state 30 100 t1, generate_time_series_state 30 100 t2,
      generate_user_data_state 100 t1, generate_user_data_state 100 t2]

/-- C1 counterexample: with the same freshly-seeded source but the two
sequential invocations at different wall-clock instants (0 and 3600 seconds),
the output differs at the `transactions` key: every transaction date shifts
with the invocation instant, so the outputs are not identical for every
dataset key. -/
theorem c1_determinism_counterexample :
    (generate_all_datasets 0 zeroState).1.transactions ≠
      (generate_all_datasets 3600 zeroState).1.transactions := by
  intro heq
  rw [allDatasets_transactions 0 zeroState, allDatasets_transactions 3600 zeroState,
    generate_transactions_eq, generate_transactions_eq] at heq
  have hmap := congrArg (List.map Transaction.date) heq
  rw [transGo_dates ((0 : Int) - 90 * 86400) ((3600 : Int) - 90 * 86400) 200 0
    (stateAfterProducts zeroState)] at hmap
  have hlenB : ((transGo ((3600 : Int) - 90 * 86400) 0 200
      (stateAfterProducts zeroState)).1.map Transaction.date).length = 200 := by
    rw [List.length_map]
    exact transGo_length _ _ _ _
  have hneB : ((transGo ((3600 : Int) - 90 * 86400) 0 200
      (stateAfterProducts zeroState)).1.map Transaction.date) ≠ [] := by
    intro h
    rw [h] at hlenB
    simp at hlenB
  obtain ⟨b, rest, hB⟩ := List.exists_cons_of_ne_nil hneB
  rw [hB] at hmap
  simp only [List.map_cons, List.cons.injEq] at hmap
  omega

end DataGen
